import Mathlib

/-!
Verification of the carousel controller (`createSlider`, src/unnamed/part_003)
against its natural-language specification.

The slider is single-threaded, event-driven JavaScript.  The shallow embedding
below translates the state and the operations the claims touch into pure Lean
functions: machine arithmetic on indices is `Int` (JS numbers behave as exact
integers in every relevant range here), the JS remainder operator is modelled
explicitly (`jsRem`), DOM slide lists become `List Slide`, and the
event-or-fallback settle race becomes a fold over an explicit signal list.
Line numbers in doc comments refer to src/unnamed/part_003.
-/

/-- JS remainder `a % b`: truncated division, the result takes the sign of the
dividend.  This is `Int.tmod`, not Lean's Euclidean `%`. -/
def jsRem (a b : Int) : Int := Int.tmod a b

/-- One slide element, as the controller tags it through `dataset`:
`realIndex` (assigned once from original document order, lines 57-59),
`visualIndex` (assigned after the RTL reorder, lines 70-73), and the clone
markers `data-clone` / `data-temp-clone`. -/
structure Slide where
  realIndex : Int
  visualIndex : Int
  isClone : Bool
  isTempClone : Bool
deriving DecidableEq, Repr, Inhabited

/-- The original slides in document order, each annotated with its real index
(lines 56-59).  `visualIndex` is not yet assigned; it is set to 0 here and
overwritten by `assignVisualFrom` exactly as the DOM dataset would be. -/
def originalSlides (n : Nat) : List Slide :=
  (List.range n).map (fun (i : Nat) =>
    { realIndex := (i : Int), visualIndex := 0, isClone := false, isTempClone := false })

/-- The `slidesNow.forEach((s, visualIdx) => ...)` pass of
`ensureDomVisualOrder` (lines 70-73): stamp each slide with its left-to-right
position, counting from `k`. -/
def assignVisualFrom : Int → List Slide → List Slide
  | _, [] => []
  | k, s :: rest => { s with visualIndex := k } :: assignVisualFrom (k + 1) rest

/-- `ensureDomVisualOrder` (lines 62-80): for `rtl` the original slides are
re-appended in reversed order, then every slide gets its visual index. -/
def visualSlides (direction : String) (n : Nat) : List Slide :=
  let ordered := if direction = "rtl" then (originalSlides n).reverse else originalSlides n
  assignVisualFrom 0 ordered

/-- `setupClones` (lines 104-140): in infinite mode with more than one real
slide, clone the visual-first and visual-last slides, append the first clone
at the end and prepend the last clone at the start, and set
`currentIndex = 1`; otherwise keep the visual order and set `currentIndex = 0`.
Returns the resulting `workingSlides` list and `currentIndex`. -/
def setupClonesResult (infinite : Bool) (direction : String) (n : Nat) : List Slide × Nat :=
  let ws := visualSlides direction n
  if infinite = true ∧ 1 < n then
    let first := { ws.headI with isClone := true, visualIndex := -1 }
    let last := { ws.getLastI with isClone := true, visualIndex := (n : Int) }
    (last :: ws ++ [first], 1)
  else
    (ws, 0)

/-- Index adjustment at the top of `goTo` (lines 229-236): finite mode clamps
(`loop = false`) or wraps with the JS double-remainder idiom (`loop = true`);
infinite mode passes the index through. -/
def adjustIndex (infinite loop : Bool) (len index : Int) : Int :=
  if infinite = false then
    if loop = false then
      max 0 (min index (len - 1))
    else
      jsRem (jsRem index len + len) len
  else
    index

/-- Result of the settle `cleanup` closure: the committed `currentIndex` and
the transform write it performs, if any, as (domIndex, animated). -/
structure SettleResult where
  currentIndex : Int
  transformWrite : Option (Int × Bool)
deriving DecidableEq, Repr

/-- The `cleanup` closure of `goTo` (lines 241-260): in infinite mode, landing
on the appended clone (`index = len - 1`) jumps to domIndex 1 without
animation, landing on the prepended clone (`index = 0`) jumps to
`len - 2` without animation; otherwise `currentIndex = index` with no
transform write.  `index` is the adjusted goTo index, `len` is
`workingSlides.length`. -/
def goToCleanup (infinite : Bool) (len index : Int) : SettleResult :=
  if infinite = true then
    if index = len - 1 then
      { currentIndex := 1, transformWrite := some (1, false) }
    else if index = 0 then
      { currentIndex := len - 2, transformWrite := some (len - 2, false) }
    else
      { currentIndex := index, transformWrite := none }
  else
    { currentIndex := index, transformWrite := none }

/-- The `currentIndex` committed by a `goTo index` call that starts from an
idle state and is allowed to settle: index adjustment followed by the settle
cleanup. -/
def goToSettledIndex (infinite loop : Bool) (len index : Int) : Int :=
  (goToCleanup infinite len (adjustIndex infinite loop len index)).currentIndex

/-- `next()` (lines 337-352), with the resulting transition allowed to settle.
In finite mode at the last index: `loop = true` issues `goTo(len)` (the
modulo wrap reduces it to 0), `loop = false` is a no-op; otherwise
`goTo(currentIndex + 1)`. -/
def nextSettledIndex (infinite loop : Bool) (len cur : Int) : Int :=
  let target := cur + 1
  if infinite = false then
    if cur = len - 1 then
      if loop = true then goToSettledIndex infinite loop len len
      else cur
    else goToSettledIndex infinite loop len target
  else goToSettledIndex infinite loop len target

/-- `prev()` (lines 354-367), with the resulting transition allowed to settle.
In finite mode at index 0: `loop = true` issues `goTo(len - 1)`,
`loop = false` is a no-op; otherwise `goTo(currentIndex - 1)`. -/
def prevSettledIndex (infinite loop : Bool) (len cur : Int) : Int :=
  let target := cur - 1
  if infinite = false then
    if cur = 0 then
      if loop = true then goToSettledIndex infinite loop len (len - 1)
      else cur
    else goToSettledIndex infinite loop len target
  else goToSettledIndex infinite loop len target

/-- Observable shape of one forward navigation from call to settle: whether a
temp clone is appended before the animation, which domIndex the track animates
to and whether that write is animated, whether settle removes a temp clone,
the transform write settle performs (if any), the committed index, and whether
a temp clone remains in the DOM after settle. -/
structure NextTrace where
  tempCloneAppendedBeforeAnim : Bool
  animIndex : Int
  animAnimated : Bool
  settleRemovesTempClone : Bool
  settleTransformWrite : Option (Int × Bool)
  settledIndex : Int
  tempCloneAfterSettle : Bool
deriving DecidableEq, Repr

/-- Trace of `goTo index` in finite mode (lines 225-272): `goTo` performs no
DOM insertion or removal anywhere in its body, animates to the adjusted index
(`skipAnimation` defaults to false), and its finite-mode cleanup writes no
transform, committing the adjusted index. -/
def goToTraceFinite (loop : Bool) (len index : Int) : NextTrace :=
  let adjusted := adjustIndex false loop len index
  { tempCloneAppendedBeforeAnim := false
    animIndex := adjusted
    animAnimated := true
    settleRemovesTempClone := false
    settleTransformWrite := none
    settledIndex := adjusted
    tempCloneAfterSettle := false }

/-- Trace of `next()` in finite mode (lines 337-352): at the last index with
`loop = true` it calls `goTo(workingSlides.length)`; with `loop = false` it
returns without starting a transition (`none`); otherwise
`goTo(currentIndex + 1)`. -/
def nextTraceFinite (loop : Bool) (len cur : Int) : Option NextTrace :=
  if cur = len - 1 then
    if loop = true then some (goToTraceFinite loop len len)
    else none
  else some (goToTraceFinite loop len (cur + 1))

/-- Trace of `wrapToStartSmooth` (lines 288-334), read off its body: append a
temp clone of the visual-first slide, animate to `targetIndex = len` (the old
length), and on settle remove the temp clone, write the transform to index 0
without animation, and commit `currentIndex = 0`. -/
def wrapToStartSmoothTrace (len : Int) : NextTrace :=
  { tempCloneAppendedBeforeAnim := true
    animIndex := len
    animAnimated := true
    settleRemovesTempClone := true
    settleTransformWrite := some (0, false)
    settledIndex := 0
    tempCloneAfterSettle := false }

/-- What the body of the autoplay interval does on one tick. -/
inductive TickAction where
  | invokeNext
  | invokePrev
  | skip
deriving DecidableEq, Repr

/-- The autoplay tick body (lines 389-396): when no transition is in flight,
`rtl` invokes `next()` and any other direction invokes `prev()`; otherwise the
tick does nothing. -/
def autoplayTickAction (direction : String) (transitionInProgress : Bool) : TickAction :=
  if transitionInProgress = false then
    if direction = "rtl" then TickAction.invokeNext else TickAction.invokePrev
  else TickAction.skip

/-- Runtime errors the option-handling code can raise. -/
inductive JsError where
  | typeError
deriving DecidableEq, Repr

/-- Direction resolution in `createSlider` (lines 17-25).  The destructuring
declares `direction` as a `const` binding whose default initializer
`(options.direction || "ltr").toLowerCase()` only runs when the option is
undefined (yielding "ltr"); a provided value is bound verbatim, with no
lowercasing.  The validation branch then executes `direction = "ltr"` — an
assignment to a `const`-declared binding, which in JS raises
`TypeError: Assignment to constant variable` (after the `console.warn`). -/
def resolveDirection (optDirection : Option String) : Except JsError String :=
  let direction : String :=
    match optDirection with
    | none => "ltr"
    | some d => d
  if direction ≠ "ltr" ∧ direction ≠ "rtl" then
    Except.error JsError.typeError
  else
    Except.ok direction

/-- A signal that can reach the settle handler of an in-flight `goTo`
transition: a transitionend event (whose target may or may not be the track),
or the fallback timer scheduled at `speed + 160` ms. -/
inductive SettleSignal where
  | transitionEnd (targetIsTrack : Bool)
  | fallbackTimer
deriving DecidableEq, Repr

/-- State threaded through the settle race of one `goTo` call: the `called`
guard, how many times the `cleanup` closure has run, the
`transitionInProgress` flag, and the controller's `currentIndex`. -/
structure SettleState where
  called : Bool
  cleanupRuns : Nat
  transitionInProgress : Bool
  currentIndex : Int
deriving DecidableEq, Repr

/-- Effect of running the `cleanup` closure once (lines 241-260): commit the
index per `goToCleanup` and clear `transitionInProgress`. -/
def cleanupRun (infinite : Bool) (len index : Int) (st : SettleState) : SettleState :=
  { called := st.called
    cleanupRuns := st.cleanupRuns + 1
    transitionInProgress := false
    currentIndex := (goToCleanup infinite len index).currentIndex }

/-- The `onEnd` handler of `goTo` (lines 262-271) receiving one signal.  A
transitionend whose target is not the track is ignored (`e.target !== track`);
the fallback timer calls `onEnd()` with no event, so it skips that check.
Both paths are gated by the `called` flag, set before `cleanup` runs. -/
def goToOnEnd (infinite : Bool) (len index : Int) (sig : SettleSignal) (st : SettleState) :
    SettleState :=
  match sig with
  | SettleSignal.transitionEnd targetIsTrack =>
    if targetIsTrack = false then st
    else if st.called = true then st
    else cleanupRun infinite len index { st with called := true }
  | SettleSignal.fallbackTimer =>
    if st.called = true then st
    else cleanupRun infinite len index { st with called := true }

/-- Deliver a whole sequence of settle signals, in order, to the handler of
one `goTo` call. -/
def runSettle (infinite : Bool) (len index : Int) (sigs : List SettleSignal)
    (st : SettleState) : SettleState :=
  sigs.foldl (fun s sig => goToOnEnd infinite len index sig s) st

/-- Which of the three kinds of timers the controller created are currently
pending: the autoplay interval (`timerId`, line 389), the resize debounce
timeout (`handleResize._t`, lines 483-489), and a pending `goTo` fallback
settle timeout (line 271). -/
structure TimerState where
  autoplayTimer : Bool
  debounceTimer : Bool
  fallbackSettleTimer : Bool
deriving DecidableEq, Repr

/-- Effect of `destroy()` (lines 526-548) on pending timers: it calls
`stopAutoplay()`, which clears the autoplay interval (lines 400-404); no
statement in `destroy` clears `handleResize._t` or any pending `goTo`
fallback timeout. -/
def destroyTimers (t : TimerState) : TimerState :=
  { t with autoplayTimer := false }

/-- Autoplay-related state: the observable `playing` flag, the sticky
`manualPause` flag, and whether the autoplay interval is active. -/
structure PlayState where
  playing : Bool
  manualPause : Bool
  timerActive : Bool
deriving DecidableEq, Repr

/-- `stopAutoplay` (lines 400-404): clear `playing` and the interval. -/
def stopAutoplay (s : PlayState) : PlayState :=
  { s with playing := false, timerActive := false }

/-- `startAutoplay` (lines 383-398): return immediately unless the `autoplay`
option is set and `manualPause` is clear; otherwise stop any prior timer, set
`playing`, and start the interval. -/
def startAutoplay (autoplay : Bool) (s : PlayState) : PlayState :=
  if autoplay = false ∨ s.manualPause = true then s
  else
    let s := stopAutoplay s
    { s with playing := true, timerActive := true }

/-- The public `play()` method (line 526): clear `manualPause`, then call
`startAutoplay()`. -/
def playMethod (autoplay : Bool) (s : PlayState) : PlayState :=
  startAutoplay autoplay { s with manualPause := false }

/-- `buildDots` (line 158): the domIndex stored on the dot whose stored
visual index is `visualIdx`. -/
def dotStoredDomIndex (infinite : Bool) (visualIdx : Nat) : Nat :=
  if infinite = true then visualIdx + 1 else visualIdx

/-- `goToUserIndex` (lines 275-285): for a user visual index with an existing
dot (every `0 ≤ i < realCount`), navigate to that dot's stored domIndex; the
no-dot fallback computes the same formula. -/
def goToUserIndexDomTarget (infinite : Bool) (userVisualIndex : Nat) : Nat :=
  dotStoredDomIndex infinite userVisualIndex

/-- The dots click handler `onDotsClick` (lines 169-184): read the stored
visual index, invert it under `rtl` (`realCount - 1 - visualIndex`), then
convert to a domIndex and `goTo` it. -/
def dotClickDomTarget (direction : String) (infinite : Bool) (realCount visualIndex : Nat) :
    Nat :=
  let v := if direction = "rtl" then realCount - 1 - visualIndex else visualIndex
  if infinite = true then v + 1 else v

/-- The `realIndex` of the slide at DOM position `dom` of the working list
built at initialization. -/
def realIndexAtDom (infinite : Bool) (direction : String) (n dom : Nat) : Option Int :=
  ((setupClonesResult infinite direction n).1.get? dom).map (fun s => s.realIndex)

/-! ### Basic facts about the embedded slide lists -/

theorem assignVisualFrom_length (l : List Slide) (k : Int) :
    (assignVisualFrom k l).length = l.length := by
  induction l generalizing k with
  | nil => rfl
  | cons s rest ih => simp [assignVisualFrom, ih]

theorem assignVisualFrom_getElem? (l : List Slide) (k : Int) (p : Nat) :
    (assignVisualFrom k l)[p]? =
      (l[p]?).map (fun s => { s with visualIndex := k + (p : Int) }) := by
  induction l generalizing k p with
  | nil => simp [assignVisualFrom]
  | cons s rest ih =>
    cases p with
    | zero => simp [assignVisualFrom]
    | succ q =>
      simp only [assignVisualFrom, List.getElem?_cons_succ, ih]
      cases h : rest[q]? with
      | none => rfl
      | some sl =>
        simp only [Option.map_some']
        have : k + 1 + (q : Int) = k + ((q : Nat) + 1 : Nat) := by push_cast; ring
        rw [this]

theorem originalSlides_length (n : Nat) : (originalSlides n).length = n := by
  unfold originalSlides
  rw [List.length_map, List.length_range]

theorem originalSlides_getElem? (n p : Nat) (hp : p < n) :
    (originalSlides n)[p]? =
      some { realIndex := (p : Int), visualIndex := 0, isClone := false, isTempClone := false } := by
  unfold originalSlides
  rw [List.getElem?_map, List.getElem?_range hp]
  rfl

theorem visualSlides_length (d : String) (n : Nat) : (visualSlides d n).length = n := by
  unfold visualSlides
  by_cases hd : d = "rtl" <;>
    simp [hd, assignVisualFrom_length, originalSlides_length]

theorem visualSlides_getElem? (d : String) (n p : Nat) (hp : p < n) :
    (visualSlides d n)[p]? =
      some { realIndex := (if d = "rtl" then ((n - 1 - p : Nat) : Int) else (p : Int)),
             visualIndex := (p : Int), isClone := false, isTempClone := false } := by
  unfold visualSlides
  by_cases hd : d = "rtl"
  · have hlen : p < (originalSlides n).reverse.length := by
      simp [originalSlides_length]; omega
    rw [if_pos hd, assignVisualFrom_getElem?,
      List.getElem?_reverse (by simpa [originalSlides_length] using hp),
      originalSlides_length, originalSlides_getElem? n (n - 1 - p) (by omega)]
    simp [hd]
  · rw [if_neg hd, assignVisualFrom_getElem?, originalSlides_getElem? n p hp]
    simp [hd]

theorem setupClones_infinite_getElem? (d : String) (n p : Nat)
    (hn : 1 < n) (hp1 : 1 ≤ p) (hpn : p ≤ n) :
    (setupClonesResult true d n).1[p]? =
      some { realIndex :=
               (if d = "rtl" then ((n - 1 - (p - 1) : Nat) : Int) else ((p - 1 : Nat) : Int)),
             visualIndex := ((p - 1 : Nat) : Int), isClone := false, isTempClone := false } := by
  unfold setupClonesResult
  rw [if_pos ⟨rfl, hn⟩]
  cases p with
  | zero => omega
  | succ q =>
    rw [List.getElem?_append_left (by simp [visualSlides_length]; omega),
      List.getElem?_cons_succ, visualSlides_getElem? d n q (by omega)]
    simp

/-! ### The JS double-remainder wrap and the settled next/prev steps -/

theorem jsWrap_eq_emod (x len : Int) (hx : 0 ≤ x) (hlen : 0 < len) :
    jsRem (jsRem x len + len) len = x % len := by
  unfold jsRem
  rw [Int.tmod_eq_emod hx (le_of_lt hlen)]
  have h1 : 0 ≤ x % len := Int.emod_nonneg x (ne_of_gt hlen)
  rw [Int.tmod_eq_emod (by omega) (le_of_lt hlen), Int.add_emod_self,
    Int.emod_emod_of_dvd x dvd_rfl]

theorem goToSettledIndex_loop (len x : Int) (hx : 0 ≤ x) (hlen : 0 < len) :
    goToSettledIndex false true len x = x % len := by
  unfold goToSettledIndex goToCleanup adjustIndex
  simp [jsWrap_eq_emod x len hx hlen]

theorem nextSettledIndex_loop (len cur : Int) (h0 : 0 ≤ cur) (h1 : cur < len) :
    nextSettledIndex false true len cur = (cur + 1) % len := by
  unfold nextSettledIndex
  by_cases hc : cur = len - 1
  · rw [if_pos rfl, if_pos hc, if_pos rfl, goToSettledIndex_loop len len (by omega) (by omega)]
    have : cur + 1 = len := by omega
    rw [this]
  · rw [if_pos rfl, if_neg hc, goToSettledIndex_loop len (cur + 1) (by omega) (by omega)]

theorem prevSettledIndex_loop (len cur : Int) (h0 : 0 ≤ cur) (h1 : cur < len) :
    prevSettledIndex false true len cur = (cur - 1) % len := by
  unfold prevSettledIndex
  by_cases hc : cur = 0
  · rw [if_pos rfl, if_pos hc, if_pos rfl, goToSettledIndex_loop len (len - 1) (by omega) (by omega)]
    subst hc
    rw [Int.emod_eq_of_lt (by omega) (by omega)]
    have hm : ((0 : Int) - 1 + len) % len = ((0 : Int) - 1) % len := Int.add_emod_self
    rw [← hm, Int.emod_eq_of_lt (by omega) (by omega)]
    omega
  · rw [if_pos rfl, if_neg hc, goToSettledIndex_loop len (cur - 1) (by omega) (by omega)]

theorem goToSettledIndex_infinite (loop : Bool) (len x : Int) :
    goToSettledIndex true loop len x = (goToCleanup true len x).currentIndex := by
  unfold goToSettledIndex adjustIndex
  simp

theorem nextSettledIndex_infinite (loop : Bool) (len cur : Int)
    (hlen : 4 ≤ len) (h1 : 1 ≤ cur) (h2 : cur ≤ len - 2) :
    nextSettledIndex true loop len cur = if cur = len - 2 then 1 else cur + 1 := by
  have hb : nextSettledIndex true loop len cur = goToSettledIndex true loop len (cur + 1) := by
    unfold nextSettledIndex
    simp
  rw [hb, goToSettledIndex_infinite]
  unfold goToCleanup
  by_cases hc : cur = len - 2
  · rw [if_pos rfl, if_pos (show cur + 1 = len - 1 by omega), if_pos hc]
  · rw [if_pos rfl, if_neg (show ¬(cur + 1 = len - 1) by omega),
      if_neg (show ¬(cur + 1 = 0) by omega), if_neg hc]

theorem prevSettledIndex_infinite (loop : Bool) (len cur : Int)
    (hlen : 4 ≤ len) (h1 : 1 ≤ cur) (h2 : cur ≤ len - 2) :
    prevSettledIndex true loop len cur = if cur = 1 then len - 2 else cur - 1 := by
  have hb : prevSettledIndex true loop len cur = goToSettledIndex true loop len (cur - 1) := by
    unfold prevSettledIndex
    simp
  rw [hb, goToSettledIndex_infinite]
  unfold goToCleanup
  by_cases hc : cur = 1
  · rw [if_pos rfl, if_neg (show ¬(cur - 1 = len - 1) by omega),
      if_pos (show cur - 1 = 0 by omega), if_pos hc]
  · rw [if_pos rfl, if_neg (show ¬(cur - 1 = len - 1) by omega),
      if_neg (show ¬(cur - 1 = 0) by omega), if_neg hc]

theorem iterate_left_inverse (f g : Int → Int) (P : Int → Prop)
    (hstep : ∀ c, P c → P (f c) ∧ g (f c) = c) :
    ∀ (n : Nat) (c : Int), P c → g^[n] (f^[n] c) = c := by
  have hPn : ∀ (k : Nat) (x : Int), P x → P (f^[k] x) := by
    intro k
    induction k with
    | zero => intro x hx; simpa using hx
    | succ j ihj =>
      intro x hx
      rw [Function.iterate_succ_apply']
      exact (hstep _ (ihj x hx)).1
  intro n
  induction n with
  | zero => intro c _; simp
  | succ m ih =>
    intro c hc
    rw [Function.iterate_succ_apply' f, Function.iterate_succ_apply g,
      (hstep _ (hPn m c hc)).2]
    exact ih c hc

/-! ### Claims -/

/-- Claim C1, counterexample: an autoplay tick firing with no transition in
flight and direction ltr invokes prev(), and with rtl it invokes next() — the
code (lines 391-395) has the branches the opposite way round from the claim,
so the claimed tick behavior is false already at direction ltr. -/
theorem autoplay_tick_reading_direction_cex :
    ¬ (autoplayTickAction "ltr" false = TickAction.invokeNext ∧
       autoplayTickAction "rtl" false = TickAction.invokePrev) := by
  decide

/-- Claim C1 as amended: for every autoplay tick that fires while no
transition is in flight, the controller invokes next() when direction is rtl
and prev() for every other direction (in particular ltr) — autoplay always
moves against the reading direction. -/
theorem autoplay_tick_direction_amended :
    autoplayTickAction "rtl" false = TickAction.invokeNext ∧
    ∀ d : String, d ≠ "rtl" → autoplayTickAction d false = TickAction.invokePrev := by
  constructor
  · decide
  · intro d hd
    unfold autoplayTickAction
    rw [if_pos rfl, if_neg hd]

/-- Witness for the amended claim C1 at the concrete direction ltr. -/
theorem autoplay_tick_direction_amended_witness :
    autoplayTickAction "ltr" false = TickAction.invokePrev :=
  autoplay_tick_direction_amended.2 "ltr" (by decide)

/-- Claim C2, counterexample: on a finite 3-slide slider with loop enabled,
next() at the last index (2) does not perform the transient-clone wrap
sequence of wrapToStartSmooth — it starts a plain goTo transition that
appends no temp clone and animates to domIndex 0 rather than to a transient
tail position (wrapToStartSmooth is defined at lines 288-334 but never
called). -/
theorem finite_loop_next_wrap_cex :
    ¬ (nextTraceFinite true 3 2 = some (wrapToStartSmoothTrace 3)) := by
  decide

/-- Claim C2 as amended: in finite mode with loop enabled, next() at the last
index issues goTo(workingSlides.length), whose modulo wrap animates the track
(with transition) directly back to domIndex 0 and settles with
currentIndex = 0; no transient clone is ever appended, so trivially no
transient-clone element remains in the DOM after settle. -/
theorem finite_loop_next_wrap_amended (len cur : Int) (hlen : 1 ≤ len)
    (hcur : cur = len - 1) :
    nextTraceFinite true len cur = some
      { tempCloneAppendedBeforeAnim := false
        animIndex := 0
        animAnimated := true
        settleRemovesTempClone := false
        settleTransformWrite := none
        settledIndex := 0
        tempCloneAfterSettle := false } := by
  subst hcur
  unfold nextTraceFinite goToTraceFinite adjustIndex
  rw [if_pos rfl, if_pos rfl]
  have hw : jsRem (jsRem len len + len) len = 0 := by
    unfold jsRem
    rw [Int.tmod_self, Int.zero_add, Int.tmod_self]
  simp [hw]

/-- Witness for the amended claim C2 on a 3-slide finite looping slider. -/
theorem finite_loop_next_wrap_amended_witness :
    nextTraceFinite true 3 2 = some
      { tempCloneAppendedBeforeAnim := false
        animIndex := 0
        animAnimated := true
        settleRemovesTempClone := false
        settleTransformWrite := none
        settledIndex := 0
        tempCloneAfterSettle := false } :=
  finite_loop_next_wrap_amended 3 2 (by decide) (by decide)

/-- Claim C3: the code violates it.  The destructuring at lines 2-19 declares
direction as a const binding (the lowercasing default only runs when the
option is undefined), and the validation branch at lines 22-25 then assigns
to that const binding, which in JS raises TypeError: Assignment to constant
variable.  So for any provided direction outside ltr/rtl — even "RTL" —
createSlider warns and then throws instead of falling back to ltr; only the
absent option yields ltr. -/
theorem invalid_direction_throws :
    resolveDirection (some "diagonal") = Except.error JsError.typeError ∧
    resolveDirection (some "RTL") = Except.error JsError.typeError ∧
    resolveDirection none = Except.ok "ltr" :=
  ⟨rfl, rfl, rfl⟩

/-- Claim C8: the code violates it.  destroy() (lines 526-548) only calls
stopAutoplay(), clearing the autoplay interval; the resize-debounce timeout
and a pending goTo fallback settle timeout are left pending.  When the
surviving fallback of an in-flight goTo(2) fires on a finite 3-slide slider
whose currentIndex was 1, the settle cleanup still runs once and mutates
currentIndex to 2 after teardown. -/
theorem destroy_leaves_timers_pending :
    destroyTimers
        { autoplayTimer := true, debounceTimer := true, fallbackSettleTimer := true } =
      { autoplayTimer := false, debounceTimer := true, fallbackSettleTimer := true } ∧
    (goToOnEnd false 3 2 SettleSignal.fallbackTimer
        { called := false, cleanupRuns := 0, transitionInProgress := true,
          currentIndex := 1 }).currentIndex = 2 ∧
    (goToOnEnd false 3 2 SettleSignal.fallbackTimer
        { called := false, cleanupRuns := 0, transitionInProgress := true,
          currentIndex := 1 }).cleanupRuns = 1 := by
  decide

/-- Claim C10: with autoplay = false, play() clears manualPause and nothing
else — startAutoplay (line 384) returns on its first guard, so playing stays
false and the interval state is untouched. -/
theorem play_noop_without_autoplay (s : PlayState) (h : s.playing = false) :
    playMethod false s = { s with manualPause := false } ∧
    (playMethod false s).playing = false ∧
    (playMethod false s).timerActive = s.timerActive := by
  have hp : playMethod false s = { s with manualPause := false } := by
    unfold playMethod startAutoplay
    rw [if_pos (Or.inl rfl)]
  refine ⟨hp, ?_, ?_⟩ <;> rw [hp] <;> simpa using h.symm ▸ rfl

/-- Witness for claim C10 at a concrete paused state. -/
theorem play_noop_without_autoplay_witness :
    playMethod false { playing := false, manualPause := true, timerActive := false } =
      { playing := false, manualPause := false, timerActive := false } :=
  (play_noop_without_autoplay
    { playing := false, manualPause := true, timerActive := false } rfl).1

/-- Claim C4: at every settle of a goTo(index) on an infinite slider
(workingSlides.length = n + 2 with its two boundary clones), landing on the
appended clone resets to domIndex 1 without animation, landing on the
prepended clone resets to domIndex n without animation, and any other index is
committed as is; in all cases the committed currentIndex addresses a real,
non-clone slide of the working list. -/
theorem infinite_settle_commits_real_slide (d : String) (n : Nat) (index : Int)
    (hn : 2 ≤ n) (h0 : 0 ≤ index) (h1 : index ≤ (n : Int) + 1) :
    (index = (n : Int) + 1 →
      goToCleanup true ((n : Int) + 2) index =
        { currentIndex := 1, transformWrite := some (1, false) }) ∧
    (index = 0 →
      goToCleanup true ((n : Int) + 2) index =
        { currentIndex := (n : Int), transformWrite := some ((n : Int), false) }) ∧
    (index ≠ (n : Int) + 1 → index ≠ 0 →
      goToCleanup true ((n : Int) + 2) index =
        { currentIndex := index, transformWrite := none }) ∧
    ∃ s : Slide,
      (setupClonesResult true d n).1[(goToCleanup true ((n : Int) + 2) index).currentIndex.toNat]? =
        some s ∧ s.isClone = false := by
  by_cases hA : index = (n : Int) + 1
  · have hc : goToCleanup true ((n : Int) + 2) index =
        { currentIndex := 1, transformWrite := some (1, false) } := by
      unfold goToCleanup
      rw [if_pos rfl, if_pos (show index = (n : Int) + 2 - 1 by omega)]
    refine ⟨fun _ => hc, fun h => absurd h (by omega), fun h _ => absurd hA h, ?_⟩
    rw [hc]
    exact ⟨_, setupClones_infinite_getElem? d n 1 (by omega) (by omega) (by omega), rfl⟩
  · by_cases hB : index = 0
    · have hc : goToCleanup true ((n : Int) + 2) index =
          { currentIndex := (n : Int), transformWrite := some ((n : Int), false) } := by
        unfold goToCleanup
        rw [if_pos rfl, if_neg (show ¬(index = (n : Int) + 2 - 1) by omega), if_pos hB]
        have he : (n : Int) + 2 - 2 = (n : Int) := by ring
        rw [he]
      refine ⟨fun h => absurd h hA, fun _ => hc, fun _ h => absurd hB h, ?_⟩
      rw [hc]
      have ht : ((n : Int)).toNat = n := Int.toNat_ofNat n
      rw [ht]
      exact ⟨_, setupClones_infinite_getElem? d n n (by omega) (by omega) (by omega), rfl⟩
    · have hc : goToCleanup true ((n : Int) + 2) index =
          { currentIndex := index, transformWrite := none } := by
        unfold goToCleanup
        rw [if_pos rfl, if_neg (show ¬(index = (n : Int) + 2 - 1) by omega), if_neg hB]
      refine ⟨fun h => absurd h hA, fun h => absurd h hB, fun _ _ => hc, ?_⟩
      rw [hc]
      exact ⟨_, setupClones_infinite_getElem? d n index.toNat (by omega) (by omega) (by omega),
        rfl⟩

/-- Witness for claim C4: on a 2-real-slide infinite slider (working length 4),
settling a goTo on the appended clone (index 3) resets to domIndex 1 without
animation. -/
theorem infinite_settle_commits_real_slide_witness :
    goToCleanup true 4 3 = { currentIndex := 1, transformWrite := some (1, false) } :=
  (infinite_settle_commits_real_slide "ltr" 2 3 (by decide) (by decide) (by decide)).1
    (by decide)

theorem goToOnEnd_called (infinite : Bool) (len index : Int) (sig : SettleSignal)
    (st : SettleState) (h : st.called = true) :
    goToOnEnd infinite len index sig st = st := by
  cases sig with
  | transitionEnd t =>
    cases t with
    | false => rfl
    | true =>
      unfold goToOnEnd
      simp [h]
  | fallbackTimer =>
    unfold goToOnEnd
    simp [h]

theorem runSettle_called (infinite : Bool) (len index : Int) (sigs : List SettleSignal)
    (st : SettleState) (h : st.called = true) :
    runSettle infinite len index sigs st = st := by
  induction sigs with
  | nil => rfl
  | cons sig rest ih =>
    have hr : runSettle infinite len index (sig :: rest) st =
        runSettle infinite len index rest (goToOnEnd infinite len index sig st) := rfl
    rw [hr, goToOnEnd_called infinite len index sig st h]
    exact ih

theorem settle_exactly_once_aux (infinite : Bool) (len index : Int) :
    ∀ (sigs : List SettleSignal) (st : SettleState),
      st.called = false → st.cleanupRuns = 0 →
      SettleSignal.fallbackTimer ∈ sigs →
      (runSettle infinite len index sigs st).cleanupRuns = 1 ∧
      (runSettle infinite len index sigs st).transitionInProgress = false := by
  intro sigs
  induction sigs with
  | nil =>
    intro st _ _ hfb
    cases hfb
  | cons sig rest ih =>
    intro st hc hz hfb
    cases sig with
    | transitionEnd t =>
      cases t with
      | false =>
        have hmem : SettleSignal.fallbackTimer ∈ rest := by
          cases hfb with
          | tail _ h => exact h
        have hr : runSettle infinite len index (SettleSignal.transitionEnd false :: rest) st =
            runSettle infinite len index rest st := rfl
        rw [hr]
        exact ih st hc hz hmem
      | true =>
        have hstep : goToOnEnd infinite len index (SettleSignal.transitionEnd true) st =
            cleanupRun infinite len index { st with called := true } := by
          unfold goToOnEnd
          simp [hc]
        have hr : runSettle infinite len index (SettleSignal.transitionEnd true :: rest) st =
            runSettle infinite len index rest
              (goToOnEnd infinite len index (SettleSignal.transitionEnd true) st) := rfl
        rw [hr, hstep, runSettle_called _ _ _ _ _ rfl]
        unfold cleanupRun
        exact ⟨by rw [hz], rfl⟩
    | fallbackTimer =>
      have hstep : goToOnEnd infinite len index SettleSignal.fallbackTimer st =
          cleanupRun infinite len index { st with called := true } := by
        unfold goToOnEnd
        simp [hc]
      have hr : runSettle infinite len index (SettleSignal.fallbackTimer :: rest) st =
          runSettle infinite len index rest
            (goToOnEnd infinite len index SettleSignal.fallbackTimer st) := rfl
      rw [hr, hstep, runSettle_called _ _ _ _ _ rfl]
      unfold cleanupRun
      exact ⟨by rw [hz], rfl⟩

/-- Claim C5: for every goTo call that starts a transition, and for every
order in which settle signals subsequently reach its handler — provided the
fallback timer is among them, which the code guarantees since the fallback
timeout (line 271) is unconditionally scheduled and never cleared — the settle
cleanup executes exactly once (the called guard absorbs the losing path and
any stray transitionend whose target is not the track), and afterwards
transitionInProgress is false. -/
theorem settle_exactly_once (infinite : Bool) (len index c0 : Int)
    (sigs : List SettleSignal) (hfb : SettleSignal.fallbackTimer ∈ sigs) :
    (runSettle infinite len index sigs
        { called := false, cleanupRuns := 0, transitionInProgress := true,
          currentIndex := c0 }).cleanupRuns = 1 ∧
    (runSettle infinite len index sigs
        { called := false, cleanupRuns := 0, transitionInProgress := true,
          currentIndex := c0 }).transitionInProgress = false :=
  settle_exactly_once_aux infinite len index sigs
    { called := false, cleanupRuns := 0, transitionInProgress := true, currentIndex := c0 }
    rfl rfl hfb

/-- Witness for claim C5: the transitionend event wins and the later fallback
is absorbed; the cleanup ran exactly once and the in-flight flag is clear. -/
theorem settle_exactly_once_witness :
    (runSettle false 3 2 [SettleSignal.transitionEnd true, SettleSignal.fallbackTimer]
        { called := false, cleanupRuns := 0, transitionInProgress := true,
          currentIndex := 1 }).cleanupRuns = 1 ∧
    (runSettle false 3 2 [SettleSignal.transitionEnd true, SettleSignal.fallbackTimer]
        { called := false, cleanupRuns := 0, transitionInProgress := true,
          currentIndex := 1 }).transitionInProgress = false :=
  settle_exactly_once false 3 2 1
    [SettleSignal.transitionEnd true, SettleSignal.fallbackTimer] (by decide)

/-- Claim C6, counterexample: with infinite = true and a single real slide,
setupClones takes its no-clone branch (the realCount > 1 guard at line 111
fails) and initialization leaves currentIndex = 0, not 1, refuting the
claimed "infinite mode implies currentIndex == 1" for every valid
configuration. -/
theorem init_index_infinite_single_cex :
    ¬ ((setupClonesResult true "ltr" 1).2 = 1) := by
  decide

/-- Claim C6 as amended: immediately after initialization currentIndex always
addresses a real (non-clone) slide; in infinite mode it equals 1 exactly when
there is more than one real slide, and it equals 0 when infinite is off or
there is a single real slide (no clones are created then). -/
theorem init_index_real_slide_amended (infinite : Bool) (d : String) (n : Nat)
    (hn : 1 ≤ n) :
    (∃ s : Slide,
       (setupClonesResult infinite d n).1[(setupClonesResult infinite d n).2]? = some s ∧
       s.isClone = false) ∧
    (infinite = true → 1 < n → (setupClonesResult infinite d n).2 = 1) ∧
    ((infinite = false ∨ n = 1) → (setupClonesResult infinite d n).2 = 0) := by
  by_cases h : infinite = true ∧ 1 < n
  · obtain ⟨hinf, hn1⟩ := h
    subst hinf
    have h2 : (setupClonesResult true d n).2 = 1 := by
      unfold setupClonesResult
      rw [if_pos ⟨rfl, hn1⟩]
    refine ⟨?_, fun _ _ => h2, fun hcontra => ?_⟩
    · rw [h2]
      exact ⟨_, setupClones_infinite_getElem? d n 1 (by omega) (by omega) (by omega), rfl⟩
    · rcases hcontra with h | h
      · exact absurd h (by decide)
      · omega
  · have hsc : setupClonesResult infinite d n = (visualSlides d n, 0) := by
      unfold setupClonesResult
      rw [if_neg h]
    refine ⟨?_, fun hinf hn1 => absurd ⟨hinf, hn1⟩ h, fun _ => by rw [hsc]⟩
    rw [hsc]
    exact ⟨_, visualSlides_getElem? d n 0 (by omega), rfl⟩

/-- Witness for the amended claim C6: a 3-slide infinite slider initializes to
domIndex 1. -/
theorem init_index_real_slide_amended_witness :
    (setupClonesResult true "ltr" 3).2 = 1 :=
  (init_index_real_slide_amended true "ltr" 3 (by decide)).2.1 rfl (by decide)

/-- Claim C7, counterexample: finite 2-slide slider without loop, starting at
the last index 1: next() is a boundary no-op but the following prev() moves to
0, so one next() followed by one prev() does not return currentIndex to its
pre-sequence value. -/
theorem next_prev_roundtrip_cex :
    prevSettledIndex false false 2 (nextSettledIndex false false 2 1) ≠ 1 := by
  decide

/-- Claim C7 as amended: n next() calls followed by n prev() calls (each
allowed to settle, workingSlides.length fixed) return currentIndex to its
pre-sequence value in the modes with genuine wrap-around — finite with
loop = true from any in-range index, and infinite (working length at least 4,
i.e. more than one real slide plus the two boundary clones) from any settled
real position.  In finite non-loop mode the boundary no-op breaks the round
trip. -/
theorem next_prev_roundtrip_amended (infinite loop : Bool) (len cur : Int) (n : Nat)
    (hmode : (infinite = false ∧ loop = true ∧ 0 ≤ cur ∧ cur < len)
           ∨ (infinite = true ∧ 4 ≤ len ∧ 1 ≤ cur ∧ cur ≤ len - 2)) :
    (prevSettledIndex infinite loop len)^[n]
      ((nextSettledIndex infinite loop len)^[n] cur) = cur := by
  rcases hmode with ⟨hinf, hloop, h0, h1⟩ | ⟨hinf, hlen, hc1, hc2⟩
  · subst hinf
    subst hloop
    refine iterate_left_inverse (nextSettledIndex false true len)
      (prevSettledIndex false true len) (fun c => 0 ≤ c ∧ c < len) ?_ n cur ⟨h0, h1⟩
    intro c hc
    obtain ⟨hc0, hclt⟩ := hc
    have hpos : (0 : Int) < len := by omega
    have hnext : nextSettledIndex false true len c = (c + 1) % len :=
      nextSettledIndex_loop len c hc0 hclt
    have hr0 : 0 ≤ (c + 1) % len := Int.emod_nonneg _ (by omega)
    have hr1 : (c + 1) % len < len := Int.emod_lt_of_pos _ hpos
    refine ⟨by rw [hnext]; exact ⟨hr0, hr1⟩, ?_⟩
    rw [hnext, prevSettledIndex_loop len _ hr0 hr1]
    have e1 : ((c + 1) % len - 1) % len = ((c + 1) - 1) % len := by
      rw [Int.sub_emod, Int.emod_emod_of_dvd _ dvd_rfl, ← Int.sub_emod]
    rw [e1]
    have e2 : c + 1 - 1 = c := by ring
    rw [e2, Int.emod_eq_of_lt hc0 hclt]
  · subst hinf
    refine iterate_left_inverse (nextSettledIndex true loop len)
      (prevSettledIndex true loop len) (fun c => 1 ≤ c ∧ c ≤ len - 2) ?_ n cur ⟨hc1, hc2⟩
    intro c hc
    obtain ⟨hca, hcb⟩ := hc
    have hnext := nextSettledIndex_infinite loop len c hlen hca hcb
    by_cases hce : c = len - 2
    · rw [hnext, if_pos hce]
      refine ⟨⟨by omega, by omega⟩, ?_⟩
      rw [prevSettledIndex_infinite loop len 1 hlen (by omega) (by omega), if_pos rfl]
      omega
    · rw [hnext, if_neg hce]
      refine ⟨⟨by omega, by omega⟩, ?_⟩
      rw [prevSettledIndex_infinite loop len (c + 1) hlen (by omega) (by omega),
        if_neg (by omega)]
      omega

/-- Witness for the amended claim C7: finite looping 3-slide slider, two
next() calls then two prev() calls from index 2 return to 2. -/
theorem next_prev_roundtrip_amended_witness :
    (prevSettledIndex false true 3)^[2] ((nextSettledIndex false true 3)^[2] 2) = 2 :=
  next_prev_roundtrip_amended false true 3 2 2 (Or.inl ⟨rfl, rfl, by decide, by decide⟩)

/-- Claim C9: under rtl, goToUserIndex(i) resolves to the dot's stored
domIndex (infinite ? i + 1 : i) with no RTL inversion, so it navigates to the
slide whose realIndex is realCount - 1 - i, whereas a click on the dot whose
stored visualIndex is i applies the inversion realCount - 1 - i before
resolving and so targets the slide whose realIndex is i; for i different from
realCount - 1 - i the two paths resolve different domIndexes. -/
theorem rtl_user_index_vs_dot_click (infinite : Bool) (n i : Nat)
    (hi : i < n) (hinf : infinite = true → 2 ≤ n) :
    goToUserIndexDomTarget infinite i = (if infinite = true then i + 1 else i) ∧
    realIndexAtDom infinite "rtl" n (goToUserIndexDomTarget infinite i) =
      some ((n - 1 - i : Nat) : Int) ∧
    realIndexAtDom infinite "rtl" n (dotClickDomTarget "rtl" infinite n i) =
      some ((i : Nat) : Int) ∧
    (i ≠ n - 1 - i →
      goToUserIndexDomTarget infinite i ≠ dotClickDomTarget "rtl" infinite n i) := by
  cases infinite with
  | false =>
    have hsc : setupClonesResult false "rtl" n = (visualSlides "rtl" n, 0) := by
      unfold setupClonesResult
      rw [if_neg (by simp)]
    have hreal : ∀ p : Nat, p < n →
        realIndexAtDom false "rtl" n p = some ((n - 1 - p : Nat) : Int) := by
      intro p hp
      unfold realIndexAtDom
      rw [hsc, List.get?_eq_getElem?]
      rw [show ((visualSlides "rtl" n, 0) : List Slide × Nat).1 = visualSlides "rtl" n from rfl,
        visualSlides_getElem? "rtl" n p hp]
      simp
    refine ⟨rfl, hreal i hi, ?_, fun hne heq => hne ?_⟩
    · have h3 := hreal (n - 1 - i) (by omega)
      rw [show dotClickDomTarget "rtl" false n i = n - 1 - i from rfl, h3]
      congr 1
      omega
    · have heq2 : i = n - 1 - i := heq
      exact heq2
  | true =>
    have hn2 : 2 ≤ n := hinf rfl
    have hreal : ∀ p : Nat, 1 ≤ p → p ≤ n →
        realIndexAtDom true "rtl" n p = some ((n - 1 - (p - 1) : Nat) : Int) := by
      intro p hp1 hpn
      unfold realIndexAtDom
      rw [List.get?_eq_getElem?, setupClones_infinite_getElem? "rtl" n p (by omega) hp1 hpn]
      simp
    refine ⟨rfl, ?_, ?_, fun hne heq => hne ?_⟩
    · rw [show goToUserIndexDomTarget true i = i + 1 from rfl, hreal (i + 1) (by omega) (by omega)]
      congr 1
    · rw [show dotClickDomTarget "rtl" true n i = (n - 1 - i) + 1 from rfl,
        hreal ((n - 1 - i) + 1) (by omega) (by omega)]
      congr 1
      omega
    · have heq2 : i + 1 = (n - 1 - i) + 1 := heq
      omega

/-- Witness for claim C9: rtl finite slider with 5 real slides, visual index
1: goToUserIndex navigates to realIndex 3 while the dot click path resolves a
different domIndex. -/
theorem rtl_user_index_vs_dot_click_witness :
    realIndexAtDom false "rtl" 5 (goToUserIndexDomTarget false 1) = some 3 ∧
    goToUserIndexDomTarget false 1 ≠ dotClickDomTarget "rtl" false 5 1 :=
  ⟨(rtl_user_index_vs_dot_click false 5 1 (by decide) (by decide)).2.1,
   (rtl_user_index_vs_dot_click false 5 1 (by decide) (by decide)).2.2.2 (by decide)⟩
